import Mathlib

set_option maxRecDepth 10000

/-!
Verification development for the EOC database API service (Python sources:
`config.py`, `database.py`, `health_check.py`, `main.py`, `models.py`).

The definitions below are a shallow embedding of the connection-pool manager,
the dynamic SQL builders, the result normalizer and the plan-id derivation of
`database.py`, together with the request-validation and response assembly of
`models.py` / `main.py`.  Machine integers are modelled as `Int`/`Nat`
(Python integers are unbounded), Python `None`-able arguments as `Option`,
Python dicts that are used as ordered association maps as `List (String × _)`
in insertion order, and the Oracle driver as an explicit oracle function or a
small state machine.
-/

/-! ## Python truthiness for optional string arguments

Each dynamic filter in `database.py` is guarded by `if value:`, which for an
`Optional[str]` argument is true exactly when the argument is not `None` and
not the empty string. -/

/-- Truthiness of an `Optional[str]` Python value (`if value:`). -/
def pyTruthy : Option String → Bool
  | none => false
  | some s => !s.isEmpty

/-! ## Connection pool state machine (`OracleConnectionPool`, database.py lines 29-83)

The module-level `connection_pool` object holds `self.pool` (a driver pool
object or `None`) and `self.initialized`.  We track driver pool objects by a
generation number: `created` counts how many pools `cx_Oracle.create_pool`
has produced so far (so it is also the generation the next creation returns),
and `closedGens` records the generations on which `close()` was called.
`initialize_pool` is modelled on its success path (`create_pool` succeeding);
the claims under study are about the success behaviour. -/

/-- State of the `OracleConnectionPool` singleton plus the driver pools it made. -/
structure PoolState where
  pool : Option Nat
  initialized : Bool
  created : Nat
  closedGens : List Nat
deriving DecidableEq

/-- Fresh process state: `self.pool = None`, `self.initialized = False`, no
driver pool created yet. -/
def PoolState.start : PoolState := ⟨none, false, 0, []⟩

/-- Embedding of `OracleConnectionPool.initialize_pool` (success path): calls
`cx_Oracle.create_pool`, stores the new pool object in `self.pool` and sets
`self.initialized = True`.  There is no already-initialized guard in the
source. -/
def initialize_pool (s : PoolState) : PoolState :=
  { s with pool := some s.created, initialized := true, created := s.created + 1 }

/-- Outcome of acquiring a connection inside `get_connection`. -/
inductive AcquireResult
  | conn (gen : Nat)
  | poolClosedError
  | noPoolError
deriving DecidableEq

/-- Embedding of `OracleConnectionPool.get_connection`: when
`self.initialized` is false it first runs `initialize_pool`, then calls
`self.pool.acquire()`.  Acquiring on a pool whose `close()` has been called
raises the driver's pool-closed error; acquiring on `None` would be an
attribute error (`noPoolError`, unreachable after initialization). -/
def get_connection (s : PoolState) : AcquireResult × PoolState :=
  let s1 := if s.initialized then s else initialize_pool s
  match s1.pool with
  | none => (AcquireResult.noPoolError, s1)
  | some g =>
      (if g ∈ s1.closedGens then AcquireResult.poolClosedError else AcquireResult.conn g, s1)

/-- Embedding of `OracleConnectionPool.close_pool`: when `self.pool` is
truthy, closes the driver pool and resets `self.initialized = False`; the
`self.pool` attribute keeps pointing at the (now closed) driver pool. -/
def close_pool (s : PoolState) : PoolState :=
  match s.pool with
  | some g => { s with initialized := false, closedGens := g :: s.closedGens }
  | none => s

/-! ## Result normalization (per-cell conversion of driver values)

`execute_query` (database.py lines 309-320) and the dynamic search paths
(e.g. `search_message_logs` lines 548-561, `search_orders` lines 756-770)
convert each driver cell value to a JSON-serializable value.  A driver cell is
a LOB handle (whose `read()` yields bytes), a `datetime` (rendered by
`isoformat()`), `None`, or a plain scalar. -/

/-- Driver-native cell value as fetched from a cursor row. -/
inductive OraValue
  | lob (data : List Nat)
  | ts (iso : String)
  | null
  | ostr (s : String)
  | oint (n : Int)
deriving DecidableEq

/-- Python value stored into the result `row_dict` (JSON transport value). -/
inductive PyVal
  | vnull
  | vstr (s : String)
  | vint (n : Int)
  | vbytes (b : List Nat)
deriving DecidableEq

/-- Alphabet used by `base64.b64encode`. -/
def b64chars : List Char :=
  "ABCDEFGHIJKLMNOPQRSTUVWXYZabcdefghijklmnopqrstuvwxyz0123456789+/".toList

/-- Character of the base64 alphabet at a sextet value. -/
def b64char (n : Nat) : Char := b64chars.getD n (Char.ofNat 65)

/-- Base64 encoding of a byte list (standard alphabet, `=` padding),
modelling `base64.b64encode(...)`; `Char.ofNat 61` is the padding `=`. -/
def b64encode : List Nat → List Char
  | [] => []
  | [a] => [b64char (a / 4), b64char (a % 4 * 16), Char.ofNat 61, Char.ofNat 61]
  | [a, b] => [b64char (a / 4), b64char (a % 4 * 16 + b / 16), b64char (b % 16 * 4),
      Char.ofNat 61]
  | a :: b :: c :: rest =>
      b64char (a / 4) :: b64char (a % 4 * 16 + b / 16) :: b64char (b % 16 * 4 + c / 64) ::
        b64char (c % 64) :: b64encode rest

/-- Base64 encoding as a string, then `.decode("utf-8")` in the source. -/
def b64 (bs : List Nat) : String := String.mk (b64encode bs)

/-- Cell conversion in `execute_query` (database.py lines 311-320): a LOB is
replaced by the raw result of `value.read()`, a datetime by `isoformat()`,
`None` stays `None`, anything else is passed through. -/
def execute_query_cell : OraValue → PyVal
  | OraValue.lob d => PyVal.vbytes d
  | OraValue.ts i => PyVal.vstr i
  | OraValue.null => PyVal.vnull
  | OraValue.ostr s => PyVal.vstr s
  | OraValue.oint n => PyVal.vint n

/-- Cell conversion in `search_message_logs` (database.py lines 550-561): a
LOB is read and base64-encoded (`None` when the bytes are empty/falsy), a
datetime becomes `isoformat()`, anything else is passed through (`None`
included). -/
def search_message_logs_cell : OraValue → PyVal
  | OraValue.lob d => if d.isEmpty then PyVal.vnull else PyVal.vstr (b64 d)
  | OraValue.ts i => PyVal.vstr i
  | OraValue.null => PyVal.vnull
  | OraValue.ostr s => PyVal.vstr s
  | OraValue.oint n => PyVal.vint n

/-- Cell conversion in the second `search_orders` (database.py lines 759-770);
textually the same conversion as `search_message_logs_cell`. -/
def search_orders_cell : OraValue → PyVal
  | OraValue.lob d => if d.isEmpty then PyVal.vnull else PyVal.vstr (b64 d)
  | OraValue.ts i => PyVal.vstr i
  | OraValue.null => PyVal.vnull
  | OraValue.ostr s => PyVal.vstr s
  | OraValue.oint n => PyVal.vint n

/-- Cell conversion in `search_order_tracking` (database.py lines 1002-1013). -/
def search_order_tracking_cell : OraValue → PyVal
  | OraValue.lob d => if d.isEmpty then PyVal.vnull else PyVal.vstr (b64 d)
  | OraValue.ts i => PyVal.vstr i
  | OraValue.null => PyVal.vnull
  | OraValue.ostr s => PyVal.vstr s
  | OraValue.oint n => PyVal.vint n

/-- Cell conversion in `search_order_instances` (database.py lines 1221-1231). -/
def search_order_instances_cell : OraValue → PyVal
  | OraValue.lob d => if d.isEmpty then PyVal.vnull else PyVal.vstr (b64 d)
  | OraValue.ts i => PyVal.vstr i
  | OraValue.null => PyVal.vnull
  | OraValue.ostr s => PyVal.vstr s
  | OraValue.oint n => PyVal.vint n

/-! ## Whitespace normalization

`search_message_logs` finishes with `query_sql = " ".join(query_sql.split())`,
which splits on runs of whitespace (dropping empty pieces) and re-joins with
single spaces. -/

/-- Python `s.split()` (no separator argument). -/
def pySplitWs (s : String) : List String :=
  (s.split Char.isWhitespace).filter (fun t => !t.isEmpty)

/-- Python `" ".join(s.split())`. -/
def normalizeWs (s : String) : String := String.intercalate " " (pySplitWs s)

/-! ## Dynamic search query builder: `search_message_logs`
(database.py lines 451-535)

The function substitutes the blob-field list, the schema name and seven
optional filter fragments into a fixed template, normalizes whitespace, and
collects the bound parameters into a dict (modelled as an association list in
insertion order). -/

/-- The `search_message_logs` template from the query catalog
(database.py lines 240-264). -/
def search_message_logs_template : String := "
                SELECT
                    MSGID, VMID, INTER_TYPE, OPERATION, USER_ID,
                    USER_DATA1, USER_DATA2, USER_DATA3,
                    CREATION_TIME, SEND_TIME, RECEIVE_TIME,
                    RECEIVE_CHARSET, SEND_MSG_PRIORITY, RECEIVE_MSG_PRIORITY,
                    SEND_MSG_SEQID, RECEIVE_MSG_SEQID,
                    SEND_MSG_RETRYCOUNT, RECEIVE_MSG_RETRYCOUNT,
                    SEND_MSG_CORRELTIONID, RECEIVE_MSG_CORRELTIONID,
                    ACCOUNT_ID, ORDER_ID, PROCESS_ID, TRANSACTION_ID,
                    ACTIVITY_ID, CUSTOMER_ID, FAILURE, ATTEMPTCOUNT,
                    APP_NAME, SERVICE_PORT
                    {blob_fields}
                FROM {schema}.CWMESSAGELOG
                WHERE 1=1
                {user_data1_filter}
                {user_data2_filter}
                {user_data3_filter}
                {order_id_filter}
                {customer_id_filter}
                {operation_filter}
                {date_filter}
                ORDER BY CREATION_TIME DESC
                FETCH FIRST :max_results ROWS ONLY
            "

/-- Arguments of `DatabaseService.search_message_logs`, with the Python
default values. -/
structure MsgLogArgs where
  user_data1 : Option String := none
  user_data2 : Option String := none
  user_data3 : Option String := none
  order_id : Option String := none
  customer_id : Option String := none
  operation : Option String := none
  start_date : Option String := none
  end_date : Option String := none
  limit : Int := 100
  include_blob_data : Bool := false
deriving DecidableEq

/-- Embedding of the query-building part of `search_message_logs`
(database.py lines 467-532): the produced pair is the final SQL text (after
whitespace normalization) and the bound-parameter dict in insertion order. -/
def search_message_logs_build (log_schema : String) (a : MsgLogArgs) :
    String × List (String × PyVal) :=
  let blob_fields :=
    if a.include_blob_data then ", SEND_DATA, RECEIVE_DATA, SEND_MSG_PROPS, RECEIVE_MSG_PROPS"
    else ""
  let user_data1_filter := if pyTruthy a.user_data1 then "AND USER_DATA1 = :user_data1" else ""
  let user_data2_filter := if pyTruthy a.user_data2 then "AND USER_DATA2 = :user_data2" else ""
  let user_data3_filter := if pyTruthy a.user_data3 then "AND USER_DATA3 = :user_data3" else ""
  let order_id_filter := if pyTruthy a.order_id then "AND ORDER_ID = :order_id" else ""
  let customer_id_filter := if pyTruthy a.customer_id then "AND CUSTOMER_ID = :customer_id" else ""
  let operation_filter := if pyTruthy a.operation then "AND OPERATION = :operation" else ""
  let date_filter :=
    if pyTruthy a.start_date && pyTruthy a.end_date then
      "AND CREATION_TIME BETWEEN TO_TIMESTAMP(:start_date, \x27YYYY-MM-DD\"T\"HH24:MI:SS\x27) AND TO_TIMESTAMP(:end_date, \x27YYYY-MM-DD\"T\"HH24:MI:SS\x27)"
    else if pyTruthy a.start_date then
      "AND CREATION_TIME >= TO_TIMESTAMP(:start_date, \x27YYYY-MM-DD\"T\"HH24:MI:SS\x27)"
    else ""
  let parameters : List (String × PyVal) := [("max_results", PyVal.vint a.limit)]
  let parameters :=
    if pyTruthy a.user_data1 then parameters ++ [("user_data1", PyVal.vstr (a.user_data1.getD ""))]
    else parameters
  let parameters :=
    if pyTruthy a.user_data2 then parameters ++ [("user_data2", PyVal.vstr (a.user_data2.getD ""))]
    else parameters
  let parameters :=
    if pyTruthy a.user_data3 then parameters ++ [("user_data3", PyVal.vstr (a.user_data3.getD ""))]
    else parameters
  let parameters :=
    if pyTruthy a.order_id then parameters ++ [("order_id", PyVal.vstr (a.order_id.getD ""))]
    else parameters
  let parameters :=
    if pyTruthy a.customer_id then
      parameters ++ [("customer_id", PyVal.vstr (a.customer_id.getD ""))]
    else parameters
  let parameters :=
    if pyTruthy a.operation then parameters ++ [("operation", PyVal.vstr (a.operation.getD ""))]
    else parameters
  let parameters :=
    if pyTruthy a.start_date && pyTruthy a.end_date then
      parameters ++ [("start_date", PyVal.vstr (a.start_date.getD "")),
        ("end_date", PyVal.vstr (a.end_date.getD ""))]
    else if pyTruthy a.start_date then
      parameters ++ [("start_date", PyVal.vstr (a.start_date.getD ""))]
    else parameters
  let query_sql := search_message_logs_template.replace "{blob_fields}" blob_fields
  let query_sql := query_sql.replace "{schema}" log_schema
  let query_sql := query_sql.replace "{user_data1_filter}" user_data1_filter
  let query_sql := query_sql.replace "{user_data2_filter}" user_data2_filter
  let query_sql := query_sql.replace "{user_data3_filter}" user_data3_filter
  let query_sql := query_sql.replace "{order_id_filter}" order_id_filter
  let query_sql := query_sql.replace "{customer_id_filter}" customer_id_filter
  let query_sql := query_sql.replace "{operation_filter}" operation_filter
  let query_sql := query_sql.replace "{date_filter}" date_filter
  let query_sql := normalizeWs query_sql
  (query_sql, parameters)

/-- Which optional inputs of `search_message_logs` are supplied (in the Python
truthiness sense), plus the blob flag.  The SQL text may depend on this data
only. -/
structure MsgLogMask where
  ud1 : Bool
  ud2 : Bool
  ud3 : Bool
  oid : Bool
  cid : Bool
  op : Bool
  sd : Bool
  ed : Bool
  blob : Bool
deriving DecidableEq

/-- Mask of a `search_message_logs` call. -/
def msgLogMask (a : MsgLogArgs) : MsgLogMask :=
  ⟨pyTruthy a.user_data1, pyTruthy a.user_data2, pyTruthy a.user_data3,
    pyTruthy a.order_id, pyTruthy a.customer_id, pyTruthy a.operation,
    pyTruthy a.start_date, pyTruthy a.end_date, a.include_blob_data⟩

/-- The SQL text of `search_message_logs_build`, as a function of the mask
alone (proof device for the noninterference statements). -/
def search_message_logs_sql_of_mask (log_schema : String) (m : MsgLogMask) : String :=
  let blob_fields :=
    if m.blob then ", SEND_DATA, RECEIVE_DATA, SEND_MSG_PROPS, RECEIVE_MSG_PROPS" else ""
  let user_data1_filter := if m.ud1 then "AND USER_DATA1 = :user_data1" else ""
  let user_data2_filter := if m.ud2 then "AND USER_DATA2 = :user_data2" else ""
  let user_data3_filter := if m.ud3 then "AND USER_DATA3 = :user_data3" else ""
  let order_id_filter := if m.oid then "AND ORDER_ID = :order_id" else ""
  let customer_id_filter := if m.cid then "AND CUSTOMER_ID = :customer_id" else ""
  let operation_filter := if m.op then "AND OPERATION = :operation" else ""
  let date_filter :=
    if m.sd && m.ed then
      "AND CREATION_TIME BETWEEN TO_TIMESTAMP(:start_date, \x27YYYY-MM-DD\"T\"HH24:MI:SS\x27) AND TO_TIMESTAMP(:end_date, \x27YYYY-MM-DD\"T\"HH24:MI:SS\x27)"
    else if m.sd then
      "AND CREATION_TIME >= TO_TIMESTAMP(:start_date, \x27YYYY-MM-DD\"T\"HH24:MI:SS\x27)"
    else ""
  let query_sql := search_message_logs_template.replace "{blob_fields}" blob_fields
  let query_sql := query_sql.replace "{schema}" log_schema
  let query_sql := query_sql.replace "{user_data1_filter}" user_data1_filter
  let query_sql := query_sql.replace "{user_data2_filter}" user_data2_filter
  let query_sql := query_sql.replace "{user_data3_filter}" user_data3_filter
  let query_sql := query_sql.replace "{order_id_filter}" order_id_filter
  let query_sql := query_sql.replace "{customer_id_filter}" customer_id_filter
  let query_sql := query_sql.replace "{operation_filter}" operation_filter
  let query_sql := query_sql.replace "{date_filter}" date_filter
  normalizeWs query_sql

/-! ## Dynamic search query builder: the second `search_orders`
(ORDER_ORDER_HEADER search, database.py lines 625-782) -/

/-- Non-LOB column projection of `search_orders` (database.py lines 705-729). -/
def order_header_select_cols : String := "
                    CWDOCID, CWDOCSTAMP, CWORDERCREATIONDATE, CWORDERID, CWPARENTID,
                    LASTUPDATEDDATE, DUEDATE, UPDATEDBY, OMORDERID, QUOTEID, QUOTEGUID,
                    ORDERTYPE, SERVICECASEID, ACTION, DPIORDERNUMBER, RESERVATIONID,
                    CUSTOMERORDERTYPE, ORDERHASH, PONR, DPIENVIRONMENT, DPIOPERATIONREQUESTED,
                    CONTROLNUMBER, BILLINGTELEPHONENUMBER, TELEPHONENUMBER, UNIVERSALSERVICEID,
                    COMPANYID, ISHOA, ONTTYPE, ISEQUIPMENTCHANGED, ORDERSEQUENCE,
                    RECORDLOCATORNUMBER, CANCELREASON, CHECKACTIVESERVICES, ONHOLD,
                    INSTALLATIONTYPE, TELEPHONENUMBERNXX, TELEPHONENUMBERNPA, TELEPHONENUMBERSTATION,
                    TELEPHONENUMBEREXTENSION, TRACKINGID, DATETIME, HEARTBEAT, PROVIDERID,
                    PROVIDERNAME, PROVIDERTYPE, PROVIDERVERSIONID, PROVIDERVERSIONDATETIME,
                    PROVIDERDESCRIPTION, PROVIDERLOCATION, PROVIDERTRANSACTIONID, TRACERESULTMESSAGE,
                    TRACERESULTHOSTNAME, TRACESETTINGSTRACEENABLED, TRACESETTINGSTRACELEVEL,
                    TRACESETTINGSCOMPONENT, TRACERESULTCOMPONENT, TRACERESULTDATETIME,
                    CONSUMERTRACKINGID, CONSUMERAPPLICATIONID, CONSUMEREMPLOYEEID, CONSUMERUSERID,
                    CONSUMERTRANSACTIONID, REQUIRESEOCPROVISIONING, TCPROVISIONINGREQUIRED,
                    TRIADPROVISIONINGREQUIRED, SOAPROVISIONINGREQUIRED, SERVICEMANPROVISIONINGREQUIRED,
                    HSIPROVISIONINGREQUIRED, RECORDONLYCHANGE, STAGECODE, TCPROVNOTIFICATIONSTATUS,
                    TRIADPROVNOTIFICATIONSTATUS, SOAPPROVNOTIFICATIONSTATUS, SERMANPROVNOTIFICATIONSTATUS,
                    HSIPROVNOTIFICATIONSTATUS, LASTSTAGECODEMODIFIEDTIMESTAMP, DUEDATEMODIFIED,
                    CWCREATED, LOCKED, ISFUTUREDUEDATE, MAINPROCID, ORDERORIGIN, LEGACYPROCID,
                    ISRINGCENTRAL, RINGCENTRALACCOUNTID, TERMSOFSERVICEENABLED, TRADINGNAME,
                    ACCOUNTUUID, PORTINGSTATUS, PORTINGMILESTONE, ISNEWCUSTOMER, ISDATAONLY,
                    ISLITONT, LOCATIONID, ONTSERIALNUMBER
                "

/-- Arguments of the second `DatabaseService.search_orders` (the
ORDER_ORDER_HEADER search), with the Python default values. -/
structure OrderHeaderArgs where
  cworderid : Option String := none
  omorderid : Option String := none
  quoteid : Option String := none
  telephonenumber : Option String := none
  universalserviceid : Option String := none
  ordertype : Option String := none
  stagecode : Option String := none
  start_date : Option String := none
  end_date : Option String := none
  limit : Int := 100
  include_blob_data : Bool := false
deriving DecidableEq

/-- Embedding of the query-building part of the second `search_orders`
(database.py lines 657-739): conditions and bound parameters are accumulated
filter by filter, the limit is clamped by `limit = min(limit, 1000)`, and the
SQL is assembled by f-string interpolation of the (static) column list, the
configured schema, the joined conditions and the clamped limit literal. -/
def search_orders_build (log_schema : String) (a : OrderHeaderArgs) :
    String × List (String × PyVal) :=
  let conditions : List String := []
  let conditions :=
    if pyTruthy a.cworderid then conditions ++ ["CWORDERID = :cworderid"] else conditions
  let conditions :=
    if pyTruthy a.omorderid then conditions ++ ["OMORDERID = :omorderid"] else conditions
  let conditions :=
    if pyTruthy a.quoteid then conditions ++ ["QUOTEID = :quoteid"] else conditions
  let conditions :=
    if pyTruthy a.telephonenumber then conditions ++ ["TELEPHONENUMBER = :telephonenumber"]
    else conditions
  let conditions :=
    if pyTruthy a.universalserviceid then
      conditions ++ ["UNIVERSALSERVICEID = :universalserviceid"]
    else conditions
  let conditions :=
    if pyTruthy a.ordertype then conditions ++ ["ORDERTYPE = :ordertype"] else conditions
  let conditions :=
    if pyTruthy a.stagecode then conditions ++ ["STAGECODE = :stagecode"] else conditions
  let conditions :=
    if pyTruthy a.start_date then
      conditions ++
        ["CWORDERCREATIONDATE >= TO_TIMESTAMP(:start_date, \x27YYYY-MM-DD\"T\"HH24:MI:SS\x27)"]
    else conditions
  let conditions :=
    if pyTruthy a.end_date then
      conditions ++
        ["CWORDERCREATIONDATE <= TO_TIMESTAMP(:end_date, \x27YYYY-MM-DD\"T\"HH24:MI:SS\x27)"]
    else conditions
  let params : List (String × PyVal) := []
  let params :=
    if pyTruthy a.cworderid then params ++ [("cworderid", PyVal.vstr (a.cworderid.getD ""))]
    else params
  let params :=
    if pyTruthy a.omorderid then params ++ [("omorderid", PyVal.vstr (a.omorderid.getD ""))]
    else params
  let params :=
    if pyTruthy a.quoteid then params ++ [("quoteid", PyVal.vstr (a.quoteid.getD ""))]
    else params
  let params :=
    if pyTruthy a.telephonenumber then
      params ++ [("telephonenumber", PyVal.vstr (a.telephonenumber.getD ""))]
    else params
  let params :=
    if pyTruthy a.universalserviceid then
      params ++ [("universalserviceid", PyVal.vstr (a.universalserviceid.getD ""))]
    else params
  let params :=
    if pyTruthy a.ordertype then params ++ [("ordertype", PyVal.vstr (a.ordertype.getD ""))]
    else params
  let params :=
    if pyTruthy a.stagecode then params ++ [("stagecode", PyVal.vstr (a.stagecode.getD ""))]
    else params
  let params :=
    if pyTruthy a.start_date then params ++ [("start_date", PyVal.vstr (a.start_date.getD ""))]
    else params
  let params :=
    if pyTruthy a.end_date then params ++ [("end_date", PyVal.vstr (a.end_date.getD ""))]
    else params
  let limit := min a.limit 1000
  let select_cols := if a.include_blob_data then "*" else order_header_select_cols
  let where_clause :=
    if conditions.isEmpty then "1=1" else String.intercalate " AND " conditions
  let query_sql :=
    ("\n                SELECT " ++ select_cols ++ "\n                FROM " ++ log_schema ++
        ".ORDER_ORDER_HEADER\n                WHERE " ++ where_clause ++
        "\n                ORDER BY CWORDERCREATIONDATE DESC\n                FETCH FIRST ") ++
      (toString limit ++ " ROWS ONLY\n            ")
  (query_sql, params)

/-- Which optional inputs of the second `search_orders` are supplied, plus the
blob flag and the (interpolated) limit. -/
structure OrderHeaderMask where
  cwo : Bool
  omo : Bool
  quo : Bool
  tel : Bool
  usi : Bool
  oty : Bool
  stg : Bool
  sd : Bool
  ed : Bool
  blob : Bool
  limit : Int
deriving DecidableEq

/-- Mask of a `search_orders` (ORDER_ORDER_HEADER) call. -/
def orderHeaderMask (a : OrderHeaderArgs) : OrderHeaderMask :=
  ⟨pyTruthy a.cworderid, pyTruthy a.omorderid, pyTruthy a.quoteid, pyTruthy a.telephonenumber,
    pyTruthy a.universalserviceid, pyTruthy a.ordertype, pyTruthy a.stagecode,
    pyTruthy a.start_date, pyTruthy a.end_date, a.include_blob_data, a.limit⟩

/-- The SQL text of `search_orders_build`, as a function of the mask alone. -/
def search_orders_sql_of_mask (log_schema : String) (m : OrderHeaderMask) : String :=
  let conditions : List String := []
  let conditions := if m.cwo then conditions ++ ["CWORDERID = :cworderid"] else conditions
  let conditions := if m.omo then conditions ++ ["OMORDERID = :omorderid"] else conditions
  let conditions := if m.quo then conditions ++ ["QUOTEID = :quoteid"] else conditions
  let conditions :=
    if m.tel then conditions ++ ["TELEPHONENUMBER = :telephonenumber"] else conditions
  let conditions :=
    if m.usi then conditions ++ ["UNIVERSALSERVICEID = :universalserviceid"] else conditions
  let conditions := if m.oty then conditions ++ ["ORDERTYPE = :ordertype"] else conditions
  let conditions := if m.stg then conditions ++ ["STAGECODE = :stagecode"] else conditions
  let conditions :=
    if m.sd then
      conditions ++
        ["CWORDERCREATIONDATE >= TO_TIMESTAMP(:start_date, \x27YYYY-MM-DD\"T\"HH24:MI:SS\x27)"]
    else conditions
  let conditions :=
    if m.ed then
      conditions ++
        ["CWORDERCREATIONDATE <= TO_TIMESTAMP(:end_date, \x27YYYY-MM-DD\"T\"HH24:MI:SS\x27)"]
    else conditions
  let limit := min m.limit 1000
  let select_cols := if m.blob then "*" else order_header_select_cols
  let where_clause :=
    if conditions.isEmpty then "1=1" else String.intercalate " AND " conditions
  ("\n                SELECT " ++ select_cols ++ "\n                FROM " ++ log_schema ++
      ".ORDER_ORDER_HEADER\n                WHERE " ++ where_clause ++
      "\n                ORDER BY CWORDERCREATIONDATE DESC\n                FETCH FIRST ") ++
    (toString limit ++ " ROWS ONLY\n            ")

/-! ## Dynamic search query builder: `search_order_tracking`
(database.py lines 832-1025) -/

/-- The composite OR-group appended when `has_errors` is `True`
(database.py lines 907-921).  It is a fixed string literal in the source. -/
def has_errors_true_condition : String := "(
                        WFMERRORID IS NOT NULL OR
                        PREORDERERRORSYSTEMS > 0 OR
                        ERRORSRVCVALIDATION > 0 OR
                        TRIADERRORID_IA IS NOT NULL OR
                        DPIERRORID_DISP IS NOT NULL OR
                        DPIERRORID_IA IS NOT NULL OR
                        DPIUMERRORID_IA IS NOT NULL OR
                        TRIADERRORID_DISP IS NOT NULL OR
                        TCERRORID_IA IS NOT NULL OR
                        TCERRORID_DISP IS NOT NULL OR
                        CUSTOMERNOTIFERRORID_IA IS NOT NULL OR
                        CUSTOMERNOTIFERRORID_DISP IS NOT NULL OR
                        HASDPIEVERERRORED = 1
                    )"

/-- The composite AND-group appended when `has_errors` is `False`
(database.py lines 923-937).  It is a fixed string literal in the source. -/
def has_errors_false_condition : String := "(
                        WFMERRORID IS NULL AND
                        (PREORDERERRORSYSTEMS IS NULL OR PREORDERERRORSYSTEMS = 0) AND
                        (ERRORSRVCVALIDATION IS NULL OR ERRORSRVCVALIDATION = 0) AND
                        TRIADERRORID_IA IS NULL AND
                        DPIERRORID_DISP IS NULL AND
                        DPIERRORID_IA IS NULL AND
                        DPIUMERRORID_IA IS NULL AND
                        TRIADERRORID_DISP IS NULL AND
                        TCERRORID_IA IS NULL AND
                        TCERRORID_DISP IS NULL AND
                        CUSTOMERNOTIFERRORID_IA IS NULL AND
                        CUSTOMERNOTIFERRORID_DISP IS NULL AND
                        (HASDPIEVERERRORED IS NULL OR HASDPIEVERERRORED = 0)
                    )"

/-- Non-LOB column projection of `search_order_tracking`
(database.py lines 955-972). -/
def order_tracking_select_cols : String := "
                    CWDOCID, ORDERINFO, CWDOCSTAMP, CWORDERCREATIONDATE, CWORDERID, CWPARENTID,
                    LASTUPDATEDTIMESTAMP, UPDATEDBY, WFMERRORID, PROCESSWAITINGFORWFM, SCASEID,
                    ICASEID, WORKID, CASESTATUS, EXECUTIONSTATUSMESSAGE, PEGAAPIINFO, PEGAAPISTATUS,
                    ESBAPIINFO, ESBAPISTATUS, CUSTOMERAPIINFO, CUSTOMERAPISTATUS, DPIAPIINFO,
                    DPIAPISTATUS, PREORDERERRORSYSTEMS, ERRORSRVCVALIDATION, TRIADERRORID_IA,
                    TRIADINTFSTATUS, DPIERRORID_DISP, DPIERRORID_IA, DPISBMOSTATUS,
                    TRIADINVOLVEMENTORDERLEVEL, ORDERID, ORDERSTATUS, PREORDERSTATUS, FLOWSTATUS,
                    DPIUMSTATUS, DPIUMERRORID_IA, TRIADERRORID_DISP, TCINTFSTATUS,
                    TCINVOLVEMENTORDERLEVEL, TCERRORID_IA, TCERRORID_DISP, CUSTOMERNOTIFERRORID_IA,
                    CUSTOMERNOTIFERRORID_DISP, CUSTOMERNOTIFSTATUS, EMAILUPDATES, LASTORDERLINENUMBER,
                    ISDISPATCH, WORKUNITCALCULATION, PROCID, NUMBEROFITEMS, LASTTRIADOPERATION,
                    CANPROCID, TRIADCANERRORID_IA, DPIORDERID, RESPONSIBLEPARTY, IGCANDIDATE,
                    HASDPIEVERERRORED, DPISTANDALONEPROCID, NOTIFYCUSTOMERPROCID,
                    NOTSUPPORTEDPROVSYSTEMFOUND, PURGEORDER, ISCANCELLEDBYOC, CANCELREMARK,
                    TRIADRETRY, LASTUPDATEDDATE, ORDERLOCK, BICFSS, BI, NUMBEROFCFSSITEMS,
                    PASSEDHELDSTAGE
                "

/-- Arguments of `DatabaseService.search_order_tracking`, with the Python
default values. -/
structure OrderTrackingArgs where
  cworderid : Option String := none
  orderid : Option String := none
  workid : Option String := none
  scaseid : Option String := none
  icaseid : Option String := none
  orderstatus : Option String := none
  casestatus : Option String := none
  flowstatus : Option String := none
  has_errors : Option Bool := none
  start_date : Option String := none
  end_date : Option String := none
  limit : Int := 100
  include_blob_data : Bool := false
deriving DecidableEq

/-- Embedding of the condition/parameter building part of
`search_order_tracking` (database.py lines 868-945): the first component is
the `conditions` list, the second the bound-parameter dict. -/
def search_order_tracking_conditions (a : OrderTrackingArgs) :
    List String × List (String × PyVal) :=
  let conditions : List String := []
  let conditions :=
    if pyTruthy a.cworderid then conditions ++ ["CWORDERID = :cworderid"] else conditions
  let conditions :=
    if pyTruthy a.orderid then conditions ++ ["ORDERID = :orderid"] else conditions
  let conditions :=
    if pyTruthy a.workid then conditions ++ ["WORKID = :workid"] else conditions
  let conditions :=
    if pyTruthy a.scaseid then conditions ++ ["SCASEID = :scaseid"] else conditions
  let conditions :=
    if pyTruthy a.icaseid then conditions ++ ["ICASEID = :icaseid"] else conditions
  let conditions :=
    if pyTruthy a.orderstatus then conditions ++ ["ORDERSTATUS = :orderstatus"] else conditions
  let conditions :=
    if pyTruthy a.casestatus then conditions ++ ["CASESTATUS = :casestatus"] else conditions
  let conditions :=
    if pyTruthy a.flowstatus then conditions ++ ["FLOWSTATUS = :flowstatus"] else conditions
  let conditions :=
    match a.has_errors with
    | none => conditions
    | some true => conditions ++ [has_errors_true_condition]
    | some false => conditions ++ [has_errors_false_condition]
  let conditions :=
    if pyTruthy a.start_date then
      conditions ++
        ["CWORDERCREATIONDATE >= TO_TIMESTAMP(:start_date, \x27YYYY-MM-DD\"T\"HH24:MI:SS\x27)"]
    else conditions
  let conditions :=
    if pyTruthy a.end_date then
      conditions ++
        ["CWORDERCREATIONDATE <= TO_TIMESTAMP(:end_date, \x27YYYY-MM-DD\"T\"HH24:MI:SS\x27)"]
    else conditions
  let params : List (String × PyVal) := []
  let params :=
    if pyTruthy a.cworderid then params ++ [("cworderid", PyVal.vstr (a.cworderid.getD ""))]
    else params
  let params :=
    if pyTruthy a.orderid then params ++ [("orderid", PyVal.vstr (a.orderid.getD ""))]
    else params
  let params :=
    if pyTruthy a.workid then params ++ [("workid", PyVal.vstr (a.workid.getD ""))]
    else params
  let params :=
    if pyTruthy a.scaseid then params ++ [("scaseid", PyVal.vstr (a.scaseid.getD ""))]
    else params
  let params :=
    if pyTruthy a.icaseid then params ++ [("icaseid", PyVal.vstr (a.icaseid.getD ""))]
    else params
  let params :=
    if pyTruthy a.orderstatus then
      params ++ [("orderstatus", PyVal.vstr (a.orderstatus.getD ""))]
    else params
  let params :=
    if pyTruthy a.casestatus then params ++ [("casestatus", PyVal.vstr (a.casestatus.getD ""))]
    else params
  let params :=
    if pyTruthy a.flowstatus then params ++ [("flowstatus", PyVal.vstr (a.flowstatus.getD ""))]
    else params
  let params :=
    if pyTruthy a.start_date then params ++ [("start_date", PyVal.vstr (a.start_date.getD ""))]
    else params
  let params :=
    if pyTruthy a.end_date then params ++ [("end_date", PyVal.vstr (a.end_date.getD ""))]
    else params
  (conditions, params)

/-- Embedding of the query-building part of `search_order_tracking`
(database.py lines 868-982): conditions and parameters as above, limit
clamped by `limit = min(limit, 1000)`, SQL assembled by f-string
interpolation over the ORDER_TRACKING_INFO table. -/
def search_order_tracking_build (log_schema : String) (a : OrderTrackingArgs) :
    String × List (String × PyVal) :=
  let cp := search_order_tracking_conditions a
  let limit := min a.limit 1000
  let select_cols := if a.include_blob_data then "*" else order_tracking_select_cols
  let where_clause :=
    if cp.1.isEmpty then "1=1" else String.intercalate " AND " cp.1
  let query_sql :=
    ("\n                SELECT " ++ select_cols ++ "\n                FROM " ++ log_schema ++
        ".ORDER_TRACKING_INFO\n                WHERE " ++ where_clause ++
        "\n                ORDER BY CWORDERCREATIONDATE DESC\n                FETCH FIRST ") ++
      (toString limit ++ " ROWS ONLY\n            ")
  (query_sql, cp.2)

/-- Which optional inputs of `search_order_tracking` are supplied, plus the
blob flag, the limit, and the full tri-state of `has_errors` (whose boolean
value, not only its presence, selects the appended SQL fragment). -/
structure OrderTrackingMask where
  cwo : Bool
  oid : Bool
  wid : Bool
  sca : Bool
  ica : Bool
  ost : Bool
  cst : Bool
  fst : Bool
  herr : Option Bool
  sd : Bool
  ed : Bool
  blob : Bool
  limit : Int
deriving DecidableEq

/-- Mask of a `search_order_tracking` call. -/
def orderTrackingMask (a : OrderTrackingArgs) : OrderTrackingMask :=
  ⟨pyTruthy a.cworderid, pyTruthy a.orderid, pyTruthy a.workid, pyTruthy a.scaseid,
    pyTruthy a.icaseid, pyTruthy a.orderstatus, pyTruthy a.casestatus, pyTruthy a.flowstatus,
    a.has_errors, pyTruthy a.start_date, pyTruthy a.end_date, a.include_blob_data, a.limit⟩

/-- The SQL text of `search_order_tracking_build`, as a function of the mask
alone. -/
def search_order_tracking_sql_of_mask (log_schema : String) (m : OrderTrackingMask) : String :=
  let conditions : List String := []
  let conditions := if m.cwo then conditions ++ ["CWORDERID = :cworderid"] else conditions
  let conditions := if m.oid then conditions ++ ["ORDERID = :orderid"] else conditions
  let conditions := if m.wid then conditions ++ ["WORKID = :workid"] else conditions
  let conditions := if m.sca then conditions ++ ["SCASEID = :scaseid"] else conditions
  let conditions := if m.ica then conditions ++ ["ICASEID = :icaseid"] else conditions
  let conditions := if m.ost then conditions ++ ["ORDERSTATUS = :orderstatus"] else conditions
  let conditions := if m.cst then conditions ++ ["CASESTATUS = :casestatus"] else conditions
  let conditions := if m.fst then conditions ++ ["FLOWSTATUS = :flowstatus"] else conditions
  let conditions :=
    match m.herr with
    | none => conditions
    | some true => conditions ++ [has_errors_true_condition]
    | some false => conditions ++ [has_errors_false_condition]
  let conditions :=
    if m.sd then
      conditions ++
        ["CWORDERCREATIONDATE >= TO_TIMESTAMP(:start_date, \x27YYYY-MM-DD\"T\"HH24:MI:SS\x27)"]
    else conditions
  let conditions :=
    if m.ed then
      conditions ++
        ["CWORDERCREATIONDATE <= TO_TIMESTAMP(:end_date, \x27YYYY-MM-DD\"T\"HH24:MI:SS\x27)"]
    else conditions
  let limit := min m.limit 1000
  let select_cols := if m.blob then "*" else order_tracking_select_cols
  let where_clause :=
    if conditions.isEmpty then "1=1" else String.intercalate " AND " conditions
  ("\n                SELECT " ++ select_cols ++ "\n                FROM " ++ log_schema ++
      ".ORDER_TRACKING_INFO\n                WHERE " ++ where_clause ++
      "\n                ORDER BY CWORDERCREATIONDATE DESC\n                FETCH FIRST ") ++
    (toString limit ++ " ROWS ONLY\n            ")

/-! ## Dynamic search query builder: `search_order_instances`
(database.py lines 1075-1243) -/

/-- Non-LOB column projection of `search_order_instances`
(database.py lines 1179-1191). -/
def order_instance_select_cols : String := "
                    CWDOCID, METADATATYPE, STATUS, STATE, VISUALKEY, PRODUCTCODE, CREATIONDATE,
                    CREATEDBY, UPDATEDBY, LASTUPDATEDDATE, PARENTORDER, OWNER, STATE2, HASATTACHMENT,
                    METADATATYPE_VER, ORIGINAL_ORDER_ID, SOURCE_ORDER_ID, KIND_OF_ORDER, ORDER_PHASE,
                    PROJECT_ID, PROCESS_ID, CWORDERSTAMP, CWDOCSTAMP, APP_NAME, DUEDATE, BASKETID,
                    CWUSERROLE, OSTATE, CUSTOMERID, ACCOUNTID, ORDERTYPE, ORDERSUBTYPE, RELATEDORDER,
                    ORDERNUM, ORDVER, EFFECTIVEDATE, SUBMITTEDBY, SUBMITTEDDATE, PRICE, ONETIMEPRICE,
                    PRICEDON, CORRELATIONID, QUOTEID, CHANNEL, EXPIRATIONDATE, QUOTEEXPIRATIONDATE,
                    ASSIGNEDPRIORITY, REQUESTEDSTARTDATE, REQUESTEDCOMPLETIONDATE, DESCRIPTION, BITYPE,
                    EXTERNALORDERID, ISBUNDLED, MODE_SC, ISLOCKED, REQUESTER, BISPECIFICATION, QUOTEON,
                    COMPLETIONDATE, EXTENDEDSTATE, ORDERROLE, ORDERIDREF, PREVOSTATE, PMPROJECTID,
                    PMPROJECTTYPE
                "

/-- Arguments of `DatabaseService.search_order_instances`, with the Python
default values. -/
structure OrderInstanceArgs where
  cwdocid : Option String := none
  customerid : Option String := none
  accountid : Option String := none
  ordertype : Option String := none
  ordersubtype : Option String := none
  status : Option String := none
  state : Option String := none
  quoteid : Option String := none
  externalorderid : Option String := none
  productcode : Option String := none
  parentorder : Option String := none
  start_date : Option String := none
  end_date : Option String := none
  limit : Int := 100
  include_blob_data : Bool := false
deriving DecidableEq

/-- Embedding of the query-building part of `search_order_instances`
(database.py lines 1115-1201): conditions and bound parameters accumulated
filter by filter, limit clamped by `limit = min(limit, 1000)`, SQL assembled
by f-string interpolation over the CWORDERINSTANCE table. -/
def search_order_instances_build (log_schema : String) (a : OrderInstanceArgs) :
    String × List (String × PyVal) :=
  let conditions : List String := []
  let conditions :=
    if pyTruthy a.cwdocid then conditions ++ ["CWDOCID = :cwdocid"] else conditions
  let conditions :=
    if pyTruthy a.customerid then conditions ++ ["CUSTOMERID = :customerid"] else conditions
  let conditions :=
    if pyTruthy a.accountid then conditions ++ ["ACCOUNTID = :accountid"] else conditions
  let conditions :=
    if pyTruthy a.ordertype then conditions ++ ["ORDERTYPE = :ordertype"] else conditions
  let conditions :=
    if pyTruthy a.ordersubtype then conditions ++ ["ORDERSUBTYPE = :ordersubtype"]
    else conditions
  let conditions :=
    if pyTruthy a.status then conditions ++ ["STATUS = :status"] else conditions
  let conditions :=
    if pyTruthy a.state then conditions ++ ["STATE = :state"] else conditions
  let conditions :=
    if pyTruthy a.quoteid then conditions ++ ["QUOTEID = :quoteid"] else conditions
  let conditions :=
    if pyTruthy a.externalorderid then conditions ++ ["EXTERNALORDERID = :externalorderid"]
    else conditions
  let conditions :=
    if pyTruthy a.productcode then conditions ++ ["PRODUCTCODE = :productcode"] else conditions
  let conditions :=
    if pyTruthy a.parentorder then conditions ++ ["PARENTORDER = :parentorder"] else conditions
  let conditions :=
    if pyTruthy a.start_date then
      conditions ++
        ["CREATIONDATE >= TO_TIMESTAMP(:start_date, \x27YYYY-MM-DD\"T\"HH24:MI:SS\x27)"]
    else conditions
  let conditions :=
    if pyTruthy a.end_date then
      conditions ++
        ["CREATIONDATE <= TO_TIMESTAMP(:end_date, \x27YYYY-MM-DD\"T\"HH24:MI:SS\x27)"]
    else conditions
  let params : List (String × PyVal) := []
  let params :=
    if pyTruthy a.cwdocid then params ++ [("cwdocid", PyVal.vstr (a.cwdocid.getD ""))]
    else params
  let params :=
    if pyTruthy a.customerid then params ++ [("customerid", PyVal.vstr (a.customerid.getD ""))]
    else params
  let params :=
    if pyTruthy a.accountid then params ++ [("accountid", PyVal.vstr (a.accountid.getD ""))]
    else params
  let params :=
    if pyTruthy a.ordertype then params ++ [("ordertype", PyVal.vstr (a.ordertype.getD ""))]
    else params
  let params :=
    if pyTruthy a.ordersubtype then
      params ++ [("ordersubtype", PyVal.vstr (a.ordersubtype.getD ""))]
    else params
  let params :=
    if pyTruthy a.status then params ++ [("status", PyVal.vstr (a.status.getD ""))]
    else params
  let params :=
    if pyTruthy a.state then params ++ [("state", PyVal.vstr (a.state.getD ""))]
    else params
  let params :=
    if pyTruthy a.quoteid then params ++ [("quoteid", PyVal.vstr (a.quoteid.getD ""))]
    else params
  let params :=
    if pyTruthy a.externalorderid then
      params ++ [("externalorderid", PyVal.vstr (a.externalorderid.getD ""))]
    else params
  let params :=
    if pyTruthy a.productcode then
      params ++ [("productcode", PyVal.vstr (a.productcode.getD ""))]
    else params
  let params :=
    if pyTruthy a.parentorder then
      params ++ [("parentorder", PyVal.vstr (a.parentorder.getD ""))]
    else params
  let params :=
    if pyTruthy a.start_date then params ++ [("start_date", PyVal.vstr (a.start_date.getD ""))]
    else params
  let params :=
    if pyTruthy a.end_date then params ++ [("end_date", PyVal.vstr (a.end_date.getD ""))]
    else params
  let limit := min a.limit 1000
  let select_cols := if a.include_blob_data then "*" else order_instance_select_cols
  let where_clause :=
    if conditions.isEmpty then "1=1" else String.intercalate " AND " conditions
  let query_sql :=
    ("\n                SELECT " ++ select_cols ++ "\n                FROM " ++ log_schema ++
        ".CWORDERINSTANCE\n                WHERE " ++ where_clause ++
        "\n                ORDER BY CREATIONDATE DESC\n                FETCH FIRST ") ++
      (toString limit ++ " ROWS ONLY\n            ")
  (query_sql, params)

/-- Which optional inputs of `search_order_instances` are supplied, plus the
blob flag and the limit. -/
structure OrderInstanceMask where
  doc : Bool
  cus : Bool
  acc : Bool
  oty : Bool
  osu : Bool
  sta : Bool
  ste : Bool
  quo : Bool
  ext : Bool
  pco : Bool
  par : Bool
  sd : Bool
  ed : Bool
  blob : Bool
  limit : Int
deriving DecidableEq

/-- Mask of a `search_order_instances` call. -/
def orderInstanceMask (a : OrderInstanceArgs) : OrderInstanceMask :=
  ⟨pyTruthy a.cwdocid, pyTruthy a.customerid, pyTruthy a.accountid, pyTruthy a.ordertype,
    pyTruthy a.ordersubtype, pyTruthy a.status, pyTruthy a.state, pyTruthy a.quoteid,
    pyTruthy a.externalorderid, pyTruthy a.productcode, pyTruthy a.parentorder,
    pyTruthy a.start_date, pyTruthy a.end_date, a.include_blob_data, a.limit⟩

/-- The SQL text of `search_order_instances_build`, as a function of the mask
alone. -/
def search_order_instances_sql_of_mask (log_schema : String) (m : OrderInstanceMask) : String :=
  let conditions : List String := []
  let conditions := if m.doc then conditions ++ ["CWDOCID = :cwdocid"] else conditions
  let conditions := if m.cus then conditions ++ ["CUSTOMERID = :customerid"] else conditions
  let conditions := if m.acc then conditions ++ ["ACCOUNTID = :accountid"] else conditions
  let conditions := if m.oty then conditions ++ ["ORDERTYPE = :ordertype"] else conditions
  let conditions := if m.osu then conditions ++ ["ORDERSUBTYPE = :ordersubtype"] else conditions
  let conditions := if m.sta then conditions ++ ["STATUS = :status"] else conditions
  let conditions := if m.ste then conditions ++ ["STATE = :state"] else conditions
  let conditions := if m.quo then conditions ++ ["QUOTEID = :quoteid"] else conditions
  let conditions :=
    if m.ext then conditions ++ ["EXTERNALORDERID = :externalorderid"] else conditions
  let conditions := if m.pco then conditions ++ ["PRODUCTCODE = :productcode"] else conditions
  let conditions := if m.par then conditions ++ ["PARENTORDER = :parentorder"] else conditions
  let conditions :=
    if m.sd then
      conditions ++
        ["CREATIONDATE >= TO_TIMESTAMP(:start_date, \x27YYYY-MM-DD\"T\"HH24:MI:SS\x27)"]
    else conditions
  let conditions :=
    if m.ed then
      conditions ++
        ["CREATIONDATE <= TO_TIMESTAMP(:end_date, \x27YYYY-MM-DD\"T\"HH24:MI:SS\x27)"]
    else conditions
  let limit := min m.limit 1000
  let select_cols := if m.blob then "*" else order_instance_select_cols
  let where_clause :=
    if conditions.isEmpty then "1=1" else String.intercalate " AND " conditions
  ("\n                SELECT " ++ select_cols ++ "\n                FROM " ++ log_schema ++
      ".CWORDERINSTANCE\n                WHERE " ++ where_clause ++
      "\n                ORDER BY CREATIONDATE DESC\n                FETCH FIRST ") ++
    (toString limit ++ " ROWS ONLY\n            ")

/-! ## Request validation (models.py)

Every search request model declares
`limit: int = Field(default=100, ge=1, le=1000)` together with a redundant
`validate_limit` validator that rejects values above 1000
(models.py lines 229-233, 316-323, 454-459, 567-572, 677-682). -/

/-- Pydantic acceptance of the `limit` field of a search request. -/
def limit_field_valid (v : Int) : Bool := decide (1 ≤ v) && decide (v ≤ 1000)

/-! ## Row collection and the truncation flag

`execute_query` (database.py lines 308-327) and `search_message_logs`
(database.py lines 547-567) consume the cursor row by row, appending to
`results` and breaking out of the loop once
`len(results) >= self.max_results`.  The cursor itself yields at most the
bound `:max_results` value (= `limit`) many rows because of the
`FETCH FIRST :max_results ROWS ONLY` clause of the statement. -/

/-- Client-side collection loop: append each row, break once the configured
`max_query_results` cap is reached (the Python test `len(results) >=
self.max_results` runs after the append). -/
def collect_rows {α : Type} (max_results : Nat) : List α → List α → List α
  | acc, [] => acc
  | acc, r :: rs =>
      let acc2 := acc ++ [r]
      if max_results ≤ acc2.length then acc2 else collect_rows max_results acc2 rs

/-- Oracle-side semantics of `FETCH FIRST n ROWS ONLY`: the first `n` rows of
the ordered matching result set (none when `n` is not positive). -/
def fetch_first_rows {α : Type} (matching : List α) (n : Int) : List α :=
  matching.take n.toNat

/-- Rows returned by `search_message_logs` when the ordered matching result
set is `matching`: the statement is executed with `:max_results` bound to
`limit`, and the client loop additionally caps at the configured
`max_query_results`. -/
def search_message_logs_rows {α : Type} (matching : List α) (limit : Int)
    (max_results : Nat) : List α :=
  collect_rows max_results [] (fetch_first_rows matching limit)

/-- The `data_truncated` flag computed by the `/message-logs/search` endpoint
(main.py line 188): `len(results) >= request.limit`. -/
def message_logs_data_truncated (results_len : Nat) (limit : Int) : Bool :=
  decide (limit ≤ (results_len : Int))

/-! ## Catalog execution and `get_complete_order_data`
(database.py lines 284-404)

The database (server plus per-row normalization) is abstracted as an oracle
function from query name and bound parameters to the list of result rows; a
row is an ordered association list from lower-cased column name to normalized
value.  The oracle is total (no driver failure), which is the regime of claim
C7; under a non-raising driver the `tenacity` retry wrapper performs exactly
one attempt and the `except` branch of `get_complete_order_data` is inert. -/

/-- Normalized result row (`row_dict`). -/
abbrev ResultRow := List (String × PyVal)

/-- Names of the predefined queries in `self.queries`
(database.py lines 94-282). -/
def catalog_query_names : List String :=
  ["order_status", "payment_details", "shipping_info", "inventory_status", "audit_trail",
    "error_log", "customer_info", "system_events", "order_timeline", "related_orders",
    "performance_metrics", "search_orders_by_customer", "search_orders_by_status",
    "search_message_logs", "get_message_log_by_id"]

/-- Embedding of `execute_query` (database.py lines 284-333) against a total
oracle `db`: unknown names raise `ValueError`, a missing `max_results`
parameter is defaulted to the configured `max_query_results` (appended to the
parameter dict), and the fetch loop caps the row count at
`max_query_results`. -/
def execute_query_model (db : String → List (String × PyVal) → List ResultRow)
    (max_results : Nat) (query_name : String) (parameters : List (String × PyVal)) :
    Except String (List ResultRow) :=
  if catalog_query_names.contains query_name then
    let parameters :=
      if (parameters.lookup "max_results").isSome then parameters
      else parameters ++ [("max_results", PyVal.vint (max_results : Int))]
    Except.ok (collect_rows max_results [] (db query_name parameters))
  else Except.error ("Unknown query: " ++ query_name)

/-- Behaviour of `execute_query` on a catalog name (every name used by
`get_complete_order_data` is in the catalog, so the unknown-name branch is
unreachable there). -/
def execute_query_catalog (db : String → List (String × PyVal) → List ResultRow)
    (max_results : Nat) (query_name : String) (parameters : List (String × PyVal)) :
    List ResultRow :=
  let parameters :=
    if (parameters.lookup "max_results").isSome then parameters
    else parameters ++ [("max_results", PyVal.vint (max_results : Int))]
  collect_rows max_results [] (db query_name parameters)

/-- Truthiness of a Python value obtained from `dict.get` (`if customer_id:`). -/
def pyTruthyVal : Option PyVal → Bool
  | none => false
  | some PyVal.vnull => false
  | some (PyVal.vstr s) => !s.isEmpty
  | some (PyVal.vint n) => decide (n ≠ 0)
  | some (PyVal.vbytes b) => !b.isEmpty

/-- Fields of the success dict returned by `get_complete_order_data`
(database.py lines 370-395); the derived `data_summary` counts and the
`query_timestamp` are functions of these fields (lengths and wall-clock time)
and are not separate state. -/
structure CompleteOrderData where
  order_id : String
  order_info : ResultRow
  customer_info : Option ResultRow
  payments : List ResultRow
  shipping : List ResultRow
  inventory : List ResultRow
  audit_trail : List ResultRow
  error_log : List ResultRow
  system_events : List ResultRow
  timeline : List ResultRow
  related_orders : List ResultRow
deriving DecidableEq

/-- Result shapes of `get_complete_order_data`: the not-found dict
(lines 343-347), the exception dict (lines 399-404, unreachable under a
non-raising driver), and the success dict. -/
inductive CompleteOrderResult
  | notFound (error : String)
  | failure (error : String) (order_id : String)
  | found (d : CompleteOrderData)
deriving DecidableEq

/-- Embedding of `get_complete_order_data` (database.py lines 335-404)
against a total oracle, paired with the trace of catalog queries issued, in
order. -/
def get_complete_order_data (db : String → List (String × PyVal) → List ResultRow)
    (max_results : Nat) (order_id : String) : CompleteOrderResult × List String :=
  let order_info :=
    execute_query_catalog db max_results "order_status" [("order_id", PyVal.vstr order_id)]
  if order_info.isEmpty then
    (CompleteOrderResult.notFound ("Order " ++ order_id ++ " not found"), ["order_status"])
  else
    let order_data := order_info.headD []
    let customer_id := order_data.lookup "customer_id"
    let payment_data :=
      execute_query_catalog db max_results "payment_details" [("order_id", PyVal.vstr order_id)]
    let shipping_data :=
      execute_query_catalog db max_results "shipping_info" [("order_id", PyVal.vstr order_id)]
    let inventory_data :=
      execute_query_catalog db max_results "inventory_status"
        [("order_id", PyVal.vstr order_id)]
    let audit_data :=
      execute_query_catalog db max_results "audit_trail"
        [("order_id", PyVal.vstr order_id), ("max_results", PyVal.vint 50)]
    let error_data :=
      execute_query_catalog db max_results "error_log"
        [("order_id", PyVal.vstr order_id), ("max_results", PyVal.vint 20)]
    let system_events :=
      execute_query_catalog db max_results "system_events"
        [("order_id", PyVal.vstr order_id), ("max_results", PyVal.vint 30)]
    let timeline_data :=
      execute_query_catalog db max_results "order_timeline"
        [("order_id", PyVal.vstr order_id)]
    let customer_data :=
      if pyTruthyVal customer_id then
        (execute_query_catalog db max_results "customer_info"
          [("customer_id", customer_id.getD PyVal.vnull)]).head?
      else none
    let related_orders :=
      execute_query_catalog db max_results "related_orders"
        [("order_id", PyVal.vstr order_id)]
    (CompleteOrderResult.found
      { order_id := order_id, order_info := order_data, customer_info := customer_data,
        payments := payment_data, shipping := shipping_data, inventory := inventory_data,
        audit_trail := audit_data, error_log := error_data, system_events := system_events,
        timeline := timeline_data, related_orders := related_orders },
      ["order_status", "payment_details", "shipping_info", "inventory_status", "audit_trail",
          "error_log", "system_events", "order_timeline"] ++
        (if pyTruthyVal customer_id then ["customer_info"] else []) ++ ["related_orders"])

/-! ## The first `search_orders` (catalog dispatch, database.py lines 406-430) -/

/-- Dispatch performed by the first (catalog-based) `search_orders`: which
catalog query it would execute with which parameters, or the `ValueError` it
raises when neither `customer_id` nor `status` with `start_date` is given. -/
def search_orders_catalog_dispatch (customer_id status start_date : Option String)
    (limit : Int) : Except String (String × List (String × PyVal)) :=
  if pyTruthy customer_id then
    Except.ok ("search_orders_by_customer",
      [("customer_id", PyVal.vstr (customer_id.getD "")), ("max_results", PyVal.vint limit)])
  else if pyTruthy status && pyTruthy start_date then
    Except.ok ("search_orders_by_status",
      [("status", PyVal.vstr (status.getD "")), ("start_date", PyVal.vstr (start_date.getD "")),
        ("max_results", PyVal.vint limit)])
  else Except.error "Must provide either customer_id or both status and start_date"

/-! ## The `DatabaseService` class namespace (python class-body semantics)

A Python class body executes its `def` statements in order, each binding the
method name in the class dict; a later `def` with the same name rebinds it.
The table lists every method of `DatabaseService` in source order, tagged by
the line number of its `def` statement in database.py. -/

/-- Method definitions of `DatabaseService` in source order
(name, line of the `def`). -/
def databaseservice_method_defs : List (String × Nat) :=
  [("execute_query", 285), ("get_complete_order_data", 335), ("search_orders", 406),
    ("get_system_health", 432), ("search_message_logs", 451), ("get_message_log_by_id", 579),
    ("search_orders", 625), ("get_order_by_cwdocid", 784), ("search_order_tracking", 832),
    ("get_order_tracking_by_cwdocid", 1027), ("search_order_instances", 1075),
    ("get_order_instance_by_cwdocid", 1245), ("test_connection", 1293), ("create_plan", 1326),
    ("get_plan", 1379), ("search_plans", 1428), ("update_plan", 1512),
    ("update_plan_usage", 1579), ("delete_plan", 1617), ("create_execution_history", 1655),
    ("get_execution_history", 1700)]

/-- Python dict assignment `d[k] = v`: replace the value of an existing key
in place, else append the new binding. -/
def pyDictInsert (d : List (String × Nat)) (k : String) (v : Nat) : List (String × Nat) :=
  if d.any (fun p => p.1 == k) then d.map (fun p => if p.1 == k then (k, v) else p)
  else d ++ [(k, v)]

/-- The class dict of `DatabaseService` after executing the class body. -/
def databaseservice_class_dict : List (String × Nat) :=
  databaseservice_method_defs.foldl (fun d p => pyDictInsert d p.1 p.2) []

/-! ## Plan-id derivation in `create_plan` (database.py lines 1331-1336)

`key = f"{goal_type}_{order_type or 'default'}"` followed by
`plan_id = hashlib.md5(key.encode()).hexdigest()[:12]`.  MD5 is implemented
below over byte lists (RFC 1321), with 32-bit words as `Nat` reduced
`% 2 ^ 32`. -/

/-- UTF-8 encoding of one character (as `str.encode()` produces). -/
def utf8Bytes (c : Char) : List Nat :=
  let n := c.toNat
  if n < 128 then [n]
  else if n < 2048 then [192 + n / 64, 128 + n % 64]
  else if n < 65536 then [224 + n / 4096, 128 + n / 64 % 64, 128 + n % 64]
  else [240 + n / 262144, 128 + n / 4096 % 64, 128 + n / 64 % 64, 128 + n % 64]

/-- UTF-8 bytes of a string (`key.encode()`). -/
def strBytes (s : String) : List Nat := (s.toList.map utf8Bytes).flatten

/-- MD5 per-round left-rotation amounts. -/
def md5_s : List Nat :=
  [7, 12, 17, 22, 7, 12, 17, 22, 7, 12, 17, 22, 7, 12, 17, 22,
    5, 9, 14, 20, 5, 9, 14, 20, 5, 9, 14, 20, 5, 9, 14, 20,
    4, 11, 16, 23, 4, 11, 16, 23, 4, 11, 16, 23, 4, 11, 16, 23,
    6, 10, 15, 21, 6, 10, 15, 21, 6, 10, 15, 21, 6, 10, 15, 21]

/-- MD5 sine-derived additive constants. -/
def md5_k : List Nat :=
  [0xd76aa478, 0xe8c7b756, 0x242070db, 0xc1bdceee, 0xf57c0faf, 0x4787c62a, 0xa8304613,
    0xfd469501, 0x698098d8, 0x8b44f7af, 0xffff5bb1, 0x895cd7be, 0x6b901122, 0xfd987193,
    0xa679438e, 0x49b40821, 0xf61e2562, 0xc040b340, 0x265e5a51, 0xe9b6c7aa, 0xd62f105d,
    0x02441453, 0xd8a1e681, 0xe7d3fbc8, 0x21e1cde6, 0xc33707d6, 0xf4d50d87, 0x455a14ed,
    0xa9e3e905, 0xfcefa3f8, 0x676f02d9, 0x8d2a4c8a, 0xfffa3942, 0x8771f681, 0x6d9d6122,
    0xfde5380c, 0xa4beea44, 0x4bdecfa9, 0xf6bb4b60, 0xbebfbc70, 0x289b7ec6, 0xeaa127fa,
    0xd4ef3085, 0x04881d05, 0xd9d4d039, 0xe6db99e5, 0x1fa27cf8, 0xc4ac5665, 0xf4292244,
    0x432aff97, 0xab9423a7, 0xfc93a039, 0x655b59c3, 0x8f0ccc92, 0xffeff47d, 0x85845dd1,
    0x6fa87e4f, 0xfe2ce6e0, 0xa3014314, 0x4e0811a1, 0xf7537e82, 0xbd3af235, 0x2ad7d2bb,
    0xeb86d391]

/-- Left rotation of a 32-bit word (input and output below `2 ^ 32`). -/
def rotl32 (x n : Nat) : Nat := x % 2 ^ (32 - n) * 2 ^ n + x / 2 ^ (32 - n)

/-- MD5 round function (bitwise mixing of `b`, `c`, `d` by round index). -/
def md5_f (i b c d : Nat) : Nat :=
  if i < 16 then (b &&& c) ||| ((4294967295 - b) &&& d)
  else if i < 32 then (d &&& b) ||| ((4294967295 - d) &&& c)
  else if i < 48 then b ^^^ c ^^^ d
  else c ^^^ (b ||| (4294967295 - d))

/-- MD5 message-word index by round index. -/
def md5_g (i : Nat) : Nat :=
  if i < 16 then i
  else if i < 32 then (5 * i + 1) % 16
  else if i < 48 then (3 * i + 5) % 16
  else (7 * i) % 16

/-- Little-endian word of the 4 bytes at the front of a byte list. -/
def le_word (bs : List Nat) : Nat :=
  bs.getD 0 0 + 256 * bs.getD 1 0 + 65536 * bs.getD 2 0 + 16777216 * bs.getD 3 0

/-- The 16 little-endian message words of one 64-byte chunk. -/
def chunk_words (chunk : List Nat) : List Nat :=
  (List.range 16).map (fun j => le_word (chunk.drop (4 * j)))

/-- One MD5 round applied to the running `(a, b, c, d)` state. -/
def md5_step (m : List Nat) (st : Nat × Nat × Nat × Nat) (i : Nat) : Nat × Nat × Nat × Nat :=
  let f := (md5_f i st.2.1 st.2.2.1 st.2.2.2 + st.1 + md5_k.getD i 0 +
    m.getD (md5_g i) 0) % 2 ^ 32
  (st.2.2.2, (st.2.1 + rotl32 f (md5_s.getD i 0)) % 2 ^ 32, st.2.1, st.2.2.1)

/-- Processing of one 64-byte chunk: 64 rounds, then state addition. -/
def md5_chunk (st : Nat × Nat × Nat × Nat) (chunk : List Nat) : Nat × Nat × Nat × Nat :=
  let m := chunk_words chunk
  let r := (List.range 64).foldl (md5_step m) st
  ((st.1 + r.1) % 2 ^ 32, (st.2.1 + r.2.1) % 2 ^ 32, (st.2.2.1 + r.2.2.1) % 2 ^ 32,
    (st.2.2.2 + r.2.2.2) % 2 ^ 32)

/-- Little-endian byte rendering of a word (`k` bytes). -/
def le_bytes (k n : Nat) : List Nat := (List.range k).map (fun j => n / 256 ^ j % 256)

/-- MD5 padding: `0x80`, zeros to 56 mod 64, then the 64-bit little-endian
bit length. -/
def md5_pad (msg : List Nat) : List Nat :=
  msg ++ [128] ++ List.replicate ((119 - msg.length % 64) % 64) 0 ++
    le_bytes 8 (8 * msg.length)

/-- Split a byte list into 64-byte chunks (structural recursion on a fuel
argument bounded by the list length; each step consumes at least one byte). -/
def chunks64Aux : Nat → List Nat → List (List Nat)
  | _, [] => []
  | 0, _ => []
  | fuel + 1, b :: rest => ((b :: rest).take 64) :: chunks64Aux fuel ((b :: rest).drop 64)

/-- Split a byte list into 64-byte chunks. -/
def chunks64 (l : List Nat) : List (List Nat) := chunks64Aux l.length l

/-- MD5 digest (16 bytes) of a byte list. -/
def md5_digest (msg : List Nat) : List Nat :=
  let st := (chunks64 (md5_pad msg)).foldl md5_chunk
    (1732584193, 4023233417, 2562383102, 271733878)
  le_bytes 4 st.1 ++ le_bytes 4 st.2.1 ++ le_bytes 4 st.2.2.1 ++ le_bytes 4 st.2.2.2

/-- Lower-case hex digit. -/
def hex_digit (n : Nat) : Char := "0123456789abcdef".toList.getD n (Char.ofNat 48)

/-- Lower-case hex rendering of a byte list, two digits per byte. -/
def bytes_to_hex : List Nat → List Char
  | [] => []
  | b :: bs => hex_digit (b / 16) :: hex_digit (b % 16) :: bytes_to_hex bs

/-- Python `hashlib.md5(msg).hexdigest()`. -/
def md5_hexdigest (msg : List Nat) : String := String.mk (bytes_to_hex (md5_digest msg))

/-- The hash key of `create_plan`:
`key = f"{goal_type}_{order_type or 'default'}"` (Python `or` substitutes
the string literal for a falsy — `None` or empty — `order_type`). -/
def create_plan_key (goal_type : String) (order_type : Option String) : String :=
  goal_type ++ "_" ++
    (match order_type with
      | none => "default"
      | some s => if s.isEmpty then "default" else s)

/-- The plan id of `create_plan`:
`hashlib.md5(key.encode()).hexdigest()[:12]`. -/
def create_plan_plan_id (goal_type : String) (order_type : Option String) : String :=
  (md5_hexdigest (strBytes (create_plan_key goal_type order_type))).take 12

/-! ## Theorems -/

example : b64 [104, 105] = "aGk=" := by decide

example : execute_query_cell (OraValue.lob [104, 105]) = PyVal.vbytes [104, 105] := by decide

/-- The SQL text of a `search_message_logs` call is determined by its mask. -/
theorem search_message_logs_sql_factors (log_schema : String) (a : MsgLogArgs) :
    (search_message_logs_build log_schema a).1 =
      search_message_logs_sql_of_mask log_schema (msgLogMask a) := rfl

/-- The SQL text of a `search_orders` call is determined by its mask. -/
theorem search_orders_sql_factors (log_schema : String) (a : OrderHeaderArgs) :
    (search_orders_build log_schema a).1 =
      search_orders_sql_of_mask log_schema (orderHeaderMask a) := rfl

/-- The SQL text of a `search_order_tracking` call is determined by its mask,
where this mask carries the boolean value of `has_errors` and not only its
presence. -/
theorem search_order_tracking_sql_factors (log_schema : String) (a : OrderTrackingArgs) :
    (search_order_tracking_build log_schema a).1 =
      search_order_tracking_sql_of_mask log_schema (orderTrackingMask a) := rfl

/-- The SQL text of a `search_order_instances` call is determined by its
mask. -/
theorem search_order_instances_sql_factors (log_schema : String) (a : OrderInstanceArgs) :
    (search_order_instances_build log_schema a).1 =
      search_order_instances_sql_of_mask log_schema (orderInstanceMask a) := rfl

/-! ### Helper lemmas -/

/-- A conditional append factors into an appended conditional singleton. -/
theorem cond_append_factor {α : Type} (c : Bool) (l : List α) (x : α) :
    (if c then l ++ [x] else l) = l ++ (if c then [x] else []) := by
  cases c <;> simp

/-- The tri-state conditional append of `has_errors` factors the same way. -/
theorem match_option_bool_append (h : Option Bool) (l : List String) (t f : String) :
    (match h with
      | none => l
      | some true => l ++ [t]
      | some false => l ++ [f]) =
      l ++ (match h with | none => [] | some true => [t] | some false => [f]) := by
  rcases h with _ | b
  · simp
  · cases b <;> simp

/-- When the cap is not hit, the collection loop returns everything. -/
theorem collect_rows_of_le {α : Type} (m : Nat) :
    ∀ (rows acc : List α), acc.length + rows.length ≤ m →
      collect_rows m acc rows = acc ++ rows := by
  intro rows
  induction rows with
  | nil => intro acc h; simp [collect_rows]
  | cons r rs ih =>
      intro acc h
      simp only [collect_rows]
      by_cases hc : m ≤ (acc ++ [r]).length
      · have h0 : rs.length = 0 := by
          simp only [List.length_append, List.length_cons, List.length_nil] at hc h
          omega
        have hrs : rs = [] := List.length_eq_zero.mp h0
        subst hrs
        rw [if_pos hc]
      · rw [if_neg hc, ih (acc ++ [r]) (by
          simp only [List.length_append, List.length_cons, List.length_nil] at h ⊢
          omega)]
        simp

/-- The conditions list of `search_order_tracking` factors as the
equality-filter conditions, then the `has_errors` group, then the date
conditions. -/
theorem tracking_conditions_decompose (a : OrderTrackingArgs) :
    (search_order_tracking_conditions a).1 =
      ((if pyTruthy a.cworderid then ["CWORDERID = :cworderid"] else []) ++
          (if pyTruthy a.orderid then ["ORDERID = :orderid"] else []) ++
          (if pyTruthy a.workid then ["WORKID = :workid"] else []) ++
          (if pyTruthy a.scaseid then ["SCASEID = :scaseid"] else []) ++
          (if pyTruthy a.icaseid then ["ICASEID = :icaseid"] else []) ++
          (if pyTruthy a.orderstatus then ["ORDERSTATUS = :orderstatus"] else []) ++
          (if pyTruthy a.casestatus then ["CASESTATUS = :casestatus"] else []) ++
          (if pyTruthy a.flowstatus then ["FLOWSTATUS = :flowstatus"] else [])) ++
        (match a.has_errors with
          | none => []
          | some true => [has_errors_true_condition]
          | some false => [has_errors_false_condition]) ++
        ((if pyTruthy a.start_date then
            ["CWORDERCREATIONDATE >= TO_TIMESTAMP(:start_date, \x27YYYY-MM-DD\"T\"HH24:MI:SS\x27)"]
          else []) ++
          (if pyTruthy a.end_date then
            ["CWORDERCREATIONDATE <= TO_TIMESTAMP(:end_date, \x27YYYY-MM-DD\"T\"HH24:MI:SS\x27)"]
          else [])) := by
  rcases h : a.has_errors with _ | b
  · simp only [search_order_tracking_conditions, h, cond_append_factor]
    simp only [List.append_assoc, List.nil_append, List.cons_append, List.append_nil]
  · cases b <;>
      · simp only [search_order_tracking_conditions, h, cond_append_factor]
        simp only [List.append_assoc, List.nil_append, List.cons_append, List.append_nil]

/-- Length of the hex rendering. -/
theorem bytes_to_hex_length (bs : List Nat) : (bytes_to_hex bs).length = 2 * bs.length := by
  induction bs with
  | nil => simp [bytes_to_hex]
  | cons b bs ih => simp [bytes_to_hex, ih]; omega

/-- An MD5 digest has 16 bytes. -/
theorem md5_digest_length (msg : List Nat) : (md5_digest msg).length = 16 := by
  simp [md5_digest, le_bytes]

/-- An MD5 hexdigest has 32 characters. -/
theorem md5_hexdigest_length (msg : List Nat) : (md5_hexdigest msg).length = 32 := by
  show (bytes_to_hex (md5_digest msg)).length = 32
  rw [bytes_to_hex_length, md5_digest_length]

/-! ### Claim C1 -/

/-- Claim C1 as stated is false at `search_order_tracking`: two calls that
supply the same set of filters (`cworderid` and `has_errors`) with different
values (`has_errors` `True` versus `False`) produce different SQL text, even
though their bound-parameter maps are identical — the boolean value of
`has_errors` selects which static fragment is appended. -/
theorem C1_counterexample_has_errors_value_changes_sql :
    (search_order_tracking_build "logs"
        { cworderid := some "CW1", has_errors := some true, include_blob_data := true }).1 ≠
      (search_order_tracking_build "logs"
        { cworderid := some "CW1", has_errors := some false, include_blob_data := true }).1 ∧
    (search_order_tracking_build "logs"
        { cworderid := some "CW1", has_errors := some true, include_blob_data := true }).2 =
      (search_order_tracking_build "logs"
        { cworderid := some "CW1", has_errors := some false, include_blob_data := true }).2 := by
  constructor
  · decide
  · rfl

/-- Claim C1, amended: for each of the four dynamically composed searches the
SQL text is a function only of which optional filters are supplied (plus the
`include_blob_data` flag, the limit for the three order searches, and — for
`search_order_tracking` — the boolean value of the tri-state `has_errors`
flag, which selects one of two fixed static fragments); consequently no
caller-supplied filter value can reach the SQL text by concatenation — values
travel only in the bound-parameter map. -/
theorem C1_amended_sql_noninterference (log_schema : String) :
    (∀ a b : MsgLogArgs, msgLogMask a = msgLogMask b →
      (search_message_logs_build log_schema a).1 = (search_message_logs_build log_schema b).1) ∧
    (∀ a b : OrderHeaderArgs, orderHeaderMask a = orderHeaderMask b →
      (search_orders_build log_schema a).1 = (search_orders_build log_schema b).1) ∧
    (∀ a b : OrderTrackingArgs, orderTrackingMask a = orderTrackingMask b →
      (search_order_tracking_build log_schema a).1 =
        (search_order_tracking_build log_schema b).1) ∧
    (∀ a b : OrderInstanceArgs, orderInstanceMask a = orderInstanceMask b →
      (search_order_instances_build log_schema a).1 =
        (search_order_instances_build log_schema b).1) :=
  ⟨fun a b h => by
      rw [search_message_logs_sql_factors, search_message_logs_sql_factors, h],
    fun a b h => by rw [search_orders_sql_factors, search_orders_sql_factors, h],
    fun a b h => by
      rw [search_order_tracking_sql_factors, search_order_tracking_sql_factors, h],
    fun a b h => by
      rw [search_order_instances_sql_factors, search_order_instances_sql_factors, h]⟩

/-- Witness for `C1_amended_sql_noninterference` at concrete calls: the same
supplied-filter set with different values (and, for message logs, different
limits, which are bound rather than interpolated) yields identical SQL. -/
theorem C1_amended_witness :
    (search_message_logs_build "logs"
        ({ user_data1 := some "alpha", limit := 5 } : MsgLogArgs)).1 =
      (search_message_logs_build "logs"
        ({ user_data1 := some "beta", limit := 700 } : MsgLogArgs)).1 ∧
    (search_order_tracking_build "logs"
        ({ orderid := some "A1", has_errors := some true } : OrderTrackingArgs)).1 =
      (search_order_tracking_build "logs"
        ({ orderid := some "B2", has_errors := some true } : OrderTrackingArgs)).1 :=
  ⟨(C1_amended_sql_noninterference "logs").1 _ _ (by decide),
    (C1_amended_sql_noninterference "logs").2.2.1 _ _ (by decide)⟩

/-! ### Claim C2 -/

/-- Claim C2 is false on the code: after `close_pool`, a `get_connection`
does not fail with a pool-closed error — because `close_pool` resets
`self.initialized` to `False`, `get_connection` runs `initialize_pool` again
and acquires a connection from a brand-new second pool (two pools created in
one process lifetime). -/
theorem C2_counterexample_reacquire_after_close_succeeds :
    (get_connection (close_pool (initialize_pool PoolState.start))).1 =
      AcquireResult.conn 1 ∧
    (get_connection (close_pool (initialize_pool PoolState.start))).2.created = 2 := by
  constructor <;> rfl

/-- Claim C2, amended: after `close_pool` on a state holding a pool, a
subsequent `get_connection` lazily re-initializes: it creates a fresh driver
pool (creation count increments) and the acquisition succeeds on the new
pool; the pool is therefore re-created mid-process rather than acquisition
failing with a pool-closed error. -/
theorem C2_amended_close_then_reinitialize (s : PoolState) (g : Nat) (hp : s.pool = some g)
    (hg : g ≠ s.created) (hc : s.created ∉ s.closedGens) :
    get_connection (close_pool s) =
      (AcquireResult.conn s.created,
        { pool := some s.created, initialized := true, created := s.created + 1,
          closedGens := g :: s.closedGens }) := by
  simp only [close_pool, hp, get_connection, initialize_pool]
  simp [List.mem_cons, hc, Ne.symm hg]

/-- Witness for `C2_amended_close_then_reinitialize` on the state reached by
startup initialization. -/
theorem C2_amended_witness :
    get_connection (close_pool ⟨some 0, true, 1, []⟩) =
      (AcquireResult.conn 1,
        { pool := some 1, initialized := true, created := 2, closedGens := [0] }) :=
  C2_amended_close_then_reinitialize ⟨some 0, true, 1, []⟩ 0 rfl (by decide) (by decide)

/-! ### Claim C3 -/

/-- Claim C3 is false on the code: `initialize_pool` has no
already-initialized guard, so a second call while initialized does not leave
the pool object unchanged — it creates a second driver pool and installs it. -/
theorem C3_counterexample_second_initialize_replaces_pool :
    (initialize_pool (initialize_pool PoolState.start)).pool ≠
      (initialize_pool PoolState.start).pool ∧
    (initialize_pool (initialize_pool PoolState.start)).created = 2 := by
  decide

/-- Claim C3, amended: `initialize_pool` unconditionally creates and installs
a fresh pool on every call (so a second call replaces the pool rather than
being a no-op); the idempotence guard lives in `get_connection`, which skips
initialization — leaving the state unchanged — when `initialized` is already
true. -/
theorem C3_amended_initialize_unguarded (s : PoolState) :
    (initialize_pool s).pool = some s.created ∧
    (initialize_pool s).created = s.created + 1 ∧
    (s.initialized = true → (get_connection s).2 = s) := by
  refine ⟨rfl, rfl, fun h => ?_⟩
  cases hp : s.pool <;> simp [get_connection, h, hp]

/-- Witness for `C3_amended_initialize_unguarded` on an initialized state. -/
theorem C3_amended_witness :
    (initialize_pool ⟨some 0, true, 1, []⟩).pool = some 1 ∧
    (get_connection ⟨some 0, true, 1, []⟩).2 = ⟨some 0, true, 1, []⟩ :=
  ⟨(C3_amended_initialize_unguarded ⟨some 0, true, 1, []⟩).1,
    (C3_amended_initialize_unguarded ⟨some 0, true, 1, []⟩).2.2 rfl⟩

/-! ### Claim C4 -/

/-- Claim C4 is false on the code: the catalog path `execute_query` does not
base64-encode LOB values — it stores the raw bytes returned by
`value.read()` — whereas `search_message_logs` base64-encodes the same LOB
into text, so the two paths do not normalize LOB columns the same way. -/
theorem C4_counterexample_execute_query_lob_not_base64 :
    execute_query_cell (OraValue.lob [104, 105]) = PyVal.vbytes [104, 105] ∧
    search_message_logs_cell (OraValue.lob [104, 105]) = PyVal.vstr "aGk=" ∧
    execute_query_cell (OraValue.lob [104, 105]) ≠
      search_message_logs_cell (OraValue.lob [104, 105]) := by
  decide

/-- Claim C4, amended: the dynamic search paths all read a LOB fully and
base64-encode it into a text value (null for empty/falsy bytes), but the
catalog path `execute_query` reads the LOB fully and returns the raw bytes
without base64 encoding. -/
theorem C4_amended_lob_normalization (d : List Nat) (hd : d ≠ []) :
    execute_query_cell (OraValue.lob d) = PyVal.vbytes d ∧
    search_message_logs_cell (OraValue.lob d) = PyVal.vstr (b64 d) ∧
    search_orders_cell (OraValue.lob d) = PyVal.vstr (b64 d) ∧
    search_order_tracking_cell (OraValue.lob d) = PyVal.vstr (b64 d) ∧
    search_order_instances_cell (OraValue.lob d) = PyVal.vstr (b64 d) := by
  have h : d.isEmpty = false := by
    cases d with
    | nil => exact absurd rfl hd
    | cons x xs => rfl
  simp [execute_query_cell, search_message_logs_cell, search_orders_cell,
    search_order_tracking_cell, search_order_instances_cell, h]

/-- Witness for `C4_amended_lob_normalization` at a one-byte LOB. -/
theorem C4_amended_witness :
    execute_query_cell (OraValue.lob [0]) = PyVal.vbytes [0] ∧
    search_message_logs_cell (OraValue.lob [0]) = PyVal.vstr (b64 [0]) ∧
    search_orders_cell (OraValue.lob [0]) = PyVal.vstr (b64 [0]) ∧
    search_order_tracking_cell (OraValue.lob [0]) = PyVal.vstr (b64 [0]) ∧
    search_order_instances_cell (OraValue.lob [0]) = PyVal.vstr (b64 [0]) :=
  C4_amended_lob_normalization [0] (by decide)

/-! ### Claim C5 -/

/-- Claim C5: in the three order searches the value interpolated into the
`FETCH FIRST ... ROWS ONLY` clause is exactly `min(limit, 1000)` — clamped to
the upper bound 1000 regardless of the caller-requested value — and the
request models validate `limit` to be an integer in `[1, 1000]` (on which the
clamp is the identity) before it reaches the builder. -/
theorem C5_fetch_limit_clamped (log_schema : String) (ah : OrderHeaderArgs)
    (atr : OrderTrackingArgs) (ai : OrderInstanceArgs) (v : Int)
    (hv : limit_field_valid v = true) :
    (∃ pre, (search_orders_build log_schema ah).1 =
        pre ++ (toString (min ah.limit 1000) ++ " ROWS ONLY\n            ")) ∧
    min ah.limit 1000 ≤ 1000 ∧
    (∃ pre, (search_order_tracking_build log_schema atr).1 =
        pre ++ (toString (min atr.limit 1000) ++ " ROWS ONLY\n            ")) ∧
    min atr.limit 1000 ≤ 1000 ∧
    (∃ pre, (search_order_instances_build log_schema ai).1 =
        pre ++ (toString (min ai.limit 1000) ++ " ROWS ONLY\n            ")) ∧
    min ai.limit 1000 ≤ 1000 ∧
    min v 1000 = v ∧ 1 ≤ v := by
  refine ⟨⟨_, rfl⟩, min_le_right _ _, ⟨_, rfl⟩, min_le_right _ _, ⟨_, rfl⟩,
    min_le_right _ _, ?_, ?_⟩
  · simp only [limit_field_valid, Bool.and_eq_true, decide_eq_true_eq] at hv
    omega
  · simp only [limit_field_valid, Bool.and_eq_true, decide_eq_true_eq] at hv
    omega

/-- Witness for `C5_fetch_limit_clamped`: a request for 2500 rows is clamped
to 1000 in the interpolated fetch clause. -/
theorem C5_witness :
    ∃ pre, (search_orders_build "logs" ({ limit := 2500 } : OrderHeaderArgs)).1 =
      pre ++ (toString (min (2500 : Int) 1000) ++ " ROWS ONLY\n            ") :=
  (C5_fetch_limit_clamped "logs" { limit := 2500 } {} {} 100 (by decide)).1

example : toString (min (2500 : Int) 1000) = "1000" := by decide

/-! ### Claim C6 -/

/-- Claim C6 (for the `/message-logs/search` path its sources cite): the
returned row count never exceeds the effective limit — the minimum of the
validated caller limit and the configured `max_query_results` cap — and when
the matching result set is strictly larger than the effective limit, the
count equals that cap and the endpoint's `data_truncated` flag is true.  The
hypothesis `limit.toNat ≤ max_results` holds for every validated request
under the default configuration (`limit ≤ 1000 ≤ 5000 = max_query_results`). -/
theorem C6_row_cap_and_truncation {α : Type} (matching : List α) (limit : Int)
    (max_results : Nat) (h1 : limit_field_valid limit = true)
    (h2 : limit.toNat ≤ max_results) :
    (search_message_logs_rows matching limit max_results).length ≤
      min limit.toNat max_results ∧
    (min limit.toNat max_results < matching.length →
      (search_message_logs_rows matching limit max_results).length =
        min limit.toNat max_results ∧
      message_logs_data_truncated
        (search_message_logs_rows matching limit max_results).length limit = true) := by
  have h1' : 1 ≤ limit ∧ limit ≤ 1000 := by
    simp only [limit_field_valid, Bool.and_eq_true, decide_eq_true_eq] at h1
    exact h1
  have hset : search_message_logs_rows matching limit max_results =
      matching.take limit.toNat := by
    unfold search_message_logs_rows fetch_first_rows
    rw [collect_rows_of_le max_results (matching.take limit.toNat) []]
    · simp
    · simp only [List.length_nil, List.length_take]
      omega
  refine ⟨?_, fun hgt => ⟨?_, ?_⟩⟩
  · rw [hset]
    simp only [List.length_take]
    omega
  · rw [hset]
    simp only [List.length_take]
    omega
  · rw [hset]
    simp only [message_logs_data_truncated, List.length_take, decide_eq_true_eq]
    omega

/-- Witness for `C6_row_cap_and_truncation`: five matching rows, limit 3,
default cap 5000 — three rows come back and the flag is set. -/
theorem C6_witness :
    (search_message_logs_rows [0, 1, 2, 3, 4] 3 5000).length = min (Int.toNat 3) 5000 ∧
    message_logs_data_truncated
      (search_message_logs_rows [0, 1, 2, 3, 4] 3 5000).length 3 = true :=
  (C6_row_cap_and_truncation [0, 1, 2, 3, 4] 3 5000 (by decide) (by decide)).2 (by decide)

/-! ### Claim C7 -/

/-- Claim C7: when the primary `order_status` lookup returns no row,
`get_complete_order_data` returns the not-found result (success false,
`order_exists` False) immediately, and the query trace is exactly
`["order_status"]` — one catalog query, no related-entity fan-out. -/
theorem C7_missing_order_single_query
    (db : String → List (String × PyVal) → List ResultRow) (max_results : Nat)
    (order_id : String)
    (h : db "order_status"
        [("order_id", PyVal.vstr order_id),
          ("max_results", PyVal.vint (max_results : Int))] = []) :
    get_complete_order_data db max_results order_id =
      (CompleteOrderResult.notFound ("Order " ++ order_id ++ " not found"),
        ["order_status"]) := by
  unfold get_complete_order_data execute_query_catalog
  simp [h, collect_rows]

/-- Witness for `C7_missing_order_single_query` on an empty database. -/
theorem C7_witness :
    get_complete_order_data (fun _ _ => []) 5000 "ORD-404" =
      (CompleteOrderResult.notFound "Order ORD-404 not found", ["order_status"]) :=
  C7_missing_order_single_query (fun _ _ => []) 5000 "ORD-404" rfl

/-! ### Claim C8 -/

/-- Claim C8: the `has_errors` filter of `search_order_tracking` is
tri-state.  For every argument vector there are fixed surrounding condition
lists `pre` and `post` (the other filters) such that: with `has_errors`
absent the conditions are `pre ++ post` (no contribution); with `True`
exactly the one composite OR-group constant `has_errors_true_condition` is
inserted between them; with `False` exactly the one composite AND-group
constant `has_errors_false_condition` is inserted; and the bound-parameter
map is the same in all three cases (the fragments are closed constants,
independent of caller input, and bind nothing). -/
theorem C8_has_errors_tristate (a : OrderTrackingArgs) :
    ∃ pre post : List String,
      (search_order_tracking_conditions { a with has_errors := none }).1 = pre ++ post ∧
      (search_order_tracking_conditions { a with has_errors := some true }).1 =
        pre ++ [has_errors_true_condition] ++ post ∧
      (search_order_tracking_conditions { a with has_errors := some false }).1 =
        pre ++ [has_errors_false_condition] ++ post ∧
      (search_order_tracking_conditions { a with has_errors := some true }).2 =
        (search_order_tracking_conditions { a with has_errors := none }).2 ∧
      (search_order_tracking_conditions { a with has_errors := some false }).2 =
        (search_order_tracking_conditions { a with has_errors := none }).2 := by
  refine ⟨(if pyTruthy a.cworderid then ["CWORDERID = :cworderid"] else []) ++
      (if pyTruthy a.orderid then ["ORDERID = :orderid"] else []) ++
      (if pyTruthy a.workid then ["WORKID = :workid"] else []) ++
      (if pyTruthy a.scaseid then ["SCASEID = :scaseid"] else []) ++
      (if pyTruthy a.icaseid then ["ICASEID = :icaseid"] else []) ++
      (if pyTruthy a.orderstatus then ["ORDERSTATUS = :orderstatus"] else []) ++
      (if pyTruthy a.casestatus then ["CASESTATUS = :casestatus"] else []) ++
      (if pyTruthy a.flowstatus then ["FLOWSTATUS = :flowstatus"] else []),
    (if pyTruthy a.start_date then
        ["CWORDERCREATIONDATE >= TO_TIMESTAMP(:start_date, \x27YYYY-MM-DD\"T\"HH24:MI:SS\x27)"]
      else []) ++
      (if pyTruthy a.end_date then
        ["CWORDERCREATIONDATE <= TO_TIMESTAMP(:end_date, \x27YYYY-MM-DD\"T\"HH24:MI:SS\x27)"]
      else []), ?_, ?_, ?_, rfl, rfl⟩
  · rw [tracking_conditions_decompose]
    simp [List.append_assoc]
  · rw [tracking_conditions_decompose]
  · rw [tracking_conditions_decompose]

/-! ### Claim C9 -/

/-- Claim C9: the class body of `DatabaseService` defines `search_orders`
twice (at lines 406 and 625 of database.py); under Python class-body
semantics the later definition — the ORDER_ORDER_HEADER search embedded
above as `search_orders_build` — rebinds the name, so the class dict maps
`search_orders` to the line-625 method and the earlier catalog-based search
(embedded as `search_orders_catalog_dispatch`) is unreachable under that
name. -/
theorem C9_search_orders_eclipsed :
    databaseservice_class_dict.lookup "search_orders" = some 625 ∧
    ("search_orders", 406) ∈ databaseservice_method_defs ∧
    ("search_orders", 625) ∈ databaseservice_method_defs ∧
    (databaseservice_method_defs.filter (fun p => p.1 == "search_orders")).length = 2 := by
  decide

/-! ### Claim C10 -/

/-- Claim C10: the plan-id derivation of `create_plan` is not injective —
for every `goal_type`, omitting `order_type` and passing the literal string
`"default"` produce the same 12-character `plan_id`, because the hash key
substitutes `'default'` for a falsy `order_type` before hashing. -/
theorem C10_plan_id_not_injective (goal_type : String) :
    create_plan_plan_id goal_type none = create_plan_plan_id goal_type (some "default") ∧
    (create_plan_plan_id goal_type none).length = 12 := by
  constructor
  · have hk : create_plan_key goal_type (some "default") = create_plan_key goal_type none := by
      simp [create_plan_key]
    unfold create_plan_plan_id
    rw [hk]
  · have h32 := md5_hexdigest_length (strBytes (create_plan_key goal_type none))
    unfold create_plan_plan_id
    rw [String.take_eq]
    show ((md5_hexdigest (strBytes (create_plan_key goal_type none))).1.take 12).length = 12
    rw [List.length_take]
    have hd : (md5_hexdigest (strBytes (create_plan_key goal_type none))).1.length = 32 := h32
    omega

example : create_plan_plan_id "CONNECTIVITY" none =
    create_plan_plan_id "CONNECTIVITY" (some "default") := by decide
